import Mathlib

/-!
Verification of the array/table normalization layer and the command wrappers
of the pygmt binding layer.

The normalization helpers `_to_numpy` and `vectors_to_arrays` live in
`pygmt/clib/conversion.py`, which is not present in the source tree (only its
test files are); they are modelled here from the specification's section 4.1
and section 4.2.  The command wrappers `which`, `legend`, `paragraph` and
`shift_origin` are embedded from their source files under `pygmt/src/`.
-/

namespace PyGMT

/-! ### Element kinds (dtypes) -/

/-- Fixed-width numeric element kinds of canonical arrays (spec section 3). -/
inductive DType where
  | int8 | int16 | int32 | int64
  | uint8 | uint16 | uint32 | uint64
  | float16 | float32 | float64
  | complex64 | complex128
  deriving DecidableEq, Repr

/-- Nullable numeric element kinds of pandas-style columns, which support a
per-element missing marker (spec section 3 and section 4.1 steps 3-4). -/
inductive PdDType where
  | Int8 | Int16 | Int32 | Int64
  | UInt8 | UInt16 | UInt32 | UInt64
  | Float32 | Float64
  deriving DecidableEq, Repr

/-- The fixed-width non-nullable kind corresponding to a nullable kind
(spec section 4.1 step 3). -/
def PdDType.toFixed : PdDType → DType
  | .Int8 => .int8
  | .Int16 => .int16
  | .Int32 => .int32
  | .Int64 => .int64
  | .UInt8 => .uint8
  | .UInt16 => .uint16
  | .UInt32 => .uint32
  | .UInt64 => .uint64
  | .Float32 => .float32
  | .Float64 => .float64

/-- Element values stored in arrays: a numeric value, a complex value, or the
floating-point not-a-number marker. -/
inductive Val where
  | num (q : ℚ)
  | cnum (re im : ℚ)
  | nan
  deriving DecidableEq, Repr

/-- A fixed-layout numeric array: element kind, elements in logical order,
number of dimensions, and the C-contiguity flag (spec section 3). -/
structure NDArray where
  dtype : DType
  data : List Val
  ndim : Nat
  c_contiguous : Bool
  deriving DecidableEq, Repr

/-- A nullable numeric column: a nullable element kind and elements each of
which is either present or missing (spec section 3). -/
structure NullableColumn where
  dtype : PdDType
  data : List (Option Val)
  deriving DecidableEq, Repr

/-- A number in a plain host-language sequence: an integer, a float, or a
complex number (spec section 4.1 step 7). -/
inductive PyNum where
  | pyint (z : ℤ)
  | pyfloat (q : ℚ)
  | pycomplex (re im : ℚ)
  deriving DecidableEq, Repr

def PyNum.toVal : PyNum → Val
  | .pyint z => .num z
  | .pyfloat q => .num q
  | .pycomplex re im => .cnum re im

def PyNum.isComplex : PyNum → Bool
  | .pycomplex _ _ => true
  | _ => false

def PyNum.isFloat : PyNum → Bool
  | .pyfloat _ => true
  | _ => false

/-- An input vector handed to the normalization helper: a fixed-layout numeric
array (possibly non-contiguous), a nullable numeric column, or a plain
host-language sequence of numbers (spec section 3). -/
inductive InputVector where
  | ndarray (a : NDArray)
  | nullable (c : NullableColumn)
  | pyseq (xs : List PyNum)
  deriving DecidableEq, Repr

/-- Number of dimensions of an input vector; nullable columns and plain
sequences are one-dimensional. -/
def InputVector.ndim : InputVector → Nat
  | .ndarray a => a.ndim
  | .nullable _ => 1
  | .pyseq _ => 1

/-- The result of normalization, together with whether a copy was made. -/
structure ToNumpyResult where
  array : NDArray
  copied : Bool
  deriving DecidableEq, Repr

/-- The narrowest of 64-bit integer, 64-bit float, 128-bit complex that
losslessly represents all elements of a plain sequence (spec section 4.1
step 7). -/
def inferPySeqDType (xs : List PyNum) : DType :=
  if xs.any PyNum.isComplex then DType.complex128
  else if xs.any PyNum.isFloat then DType.float64
  else DType.int64

/-- Modelled from the spec: the single-vector normalization `_to_numpy` of
`pygmt/clib/conversion.py`, which is absent from the source tree (only its
tests are present).  Spec section 4.1:
step 1 - contiguous fixed-width numeric input is returned unchanged, no copy;
step 2 - non-contiguous fixed-width numeric input gets a contiguous copy of
the same element kind;
step 3 - a nullable numeric column with no missing entries converts to the
corresponding fixed-width non-nullable kind;
step 4 - a nullable numeric column with at least one missing entry converts
to 64-bit float (32-bit float when the source kind is Float32), missing
entries mapping to NaN;
step 7 - a plain sequence of numbers gets the narrowest of int64, float64,
complex128 that losslessly represents all elements.
Steps 5-6 (string and datetime inputs) are outside the claims considered
here and are not modelled. -/
def _to_numpy : InputVector → ToNumpyResult
  | .ndarray a =>
      if a.c_contiguous then { array := a, copied := false }
      else { array := { a with c_contiguous := true }, copied := true }
  | .nullable c =>
      if c.data.all Option.isSome then
        { array := { dtype := c.dtype.toFixed,
                     data := c.data.map (fun o => o.getD Val.nan),
                     ndim := 1, c_contiguous := true },
          copied := true }
      else
        { array := { dtype := if c.dtype = PdDType.Float32 then DType.float32
                              else DType.float64,
                     data := c.data.map (fun o => o.getD Val.nan),
                     ndim := 1, c_contiguous := true },
          copied := true }
  | .pyseq xs =>
      { array := { dtype := inferPySeqDType xs,
                   data := xs.map PyNum.toVal,
                   ndim := 1, c_contiguous := true },
        copied := true }

/-- Modelled from the spec: the batch normalization `vectors_to_arrays` of
`pygmt/clib/conversion.py` (absent from the source tree), spec section 4.2:
apply the single-vector normalization to each vector independently and return
the resulting canonical arrays in the same order, with no cross-vector
validation. -/
def vectors_to_arrays (vectors : List InputVector) : List NDArray :=
  vectors.map (fun v => (_to_numpy v).array)

/-- The every-other-element slice `[: :2]` (indices 0, 2, 4, ...). -/
def everyOther {α : Type} : List α → List α
  | [] => []
  | [x] => [x]
  | x :: _ :: rest => x :: everyOther rest

/-- Slicing a fixed-layout array with stride 2 yields a non-contiguous view
of the same element kind. -/
def NDArray.sliceEveryOther (a : NDArray) : NDArray :=
  { a with data := everyOther a.data, c_contiguous := false }

/-- Slicing a nullable column with stride 2 keeps its nullable element
kind. -/
def NullableColumn.sliceEveryOther (c : NullableColumn) : NullableColumn :=
  { c with data := everyOther c.data }

/-! ### Concrete example inputs -/

/-- The nullable integer column [1, 2, missing, 4, 5, 6] sliced to every
other element, giving [1, missing, 5]. -/
def naColumnExample : NullableColumn :=
  NullableColumn.sliceEveryOther
    ⟨PdDType.Int64,
     [some (Val.num 1), some (Val.num 2), Option.none,
      some (Val.num 4), some (Val.num 5), some (Val.num 6)]⟩

/-- The strided slice [1, 2, 3, 4, 5, 6][: :2] of an int32 array: a
non-contiguous view. -/
def stridedExample : NDArray :=
  NDArray.sliceEveryOther
    ⟨DType.int32,
     [Val.num 1, Val.num 2, Val.num 3, Val.num 4, Val.num 5, Val.num 6],
     1, true⟩

/-- A contiguous int64 array [1, 2, 3]. -/
def contiguousExample : NDArray :=
  ⟨DType.int64, [Val.num 1, Val.num 2, Val.num 3], 1, true⟩

/-- A batch mixing plain sequences of unequal lengths and an array. -/
def mixedBatchExample : List InputVector :=
  [InputVector.pyseq [PyNum.pyint 1, PyNum.pyint 2],
   InputVector.pyseq [PyNum.pyint 3, PyNum.pyint 4, PyNum.pyint 5],
   InputVector.ndarray ⟨DType.float64, [Val.num 1, Val.num 2], 1, true⟩]

/-! ### Theorems about the normalization helpers -/

/-- C9: a contiguous input array of a fixed-width numeric element kind is
returned unchanged by the normalization - equal to the input by value and
element kind - and no copy is performed. -/
theorem to_numpy_contiguous_identity (a : NDArray) (h : a.c_contiguous = true) :
    _to_numpy (InputVector.ndarray a) = ⟨a, false⟩ := by
  simp [_to_numpy, h]

theorem to_numpy_contiguous_identity_witness :
    (contiguousExample.c_contiguous = true) ∧
    (_to_numpy (InputVector.ndarray contiguousExample) = ⟨contiguousExample, false⟩) :=
  ⟨rfl, to_numpy_contiguous_identity contiguousExample rfl⟩

/-- C3: a non-contiguous input array of a fixed-width numeric element kind is
normalized to a C-contiguous array equal to the input element-by-element,
with the same element kind (and the same number of dimensions). -/
theorem to_numpy_noncontiguous_copy (a : NDArray) (h : a.c_contiguous = false) :
    ((_to_numpy (InputVector.ndarray a)).array.c_contiguous = true) ∧
    ((_to_numpy (InputVector.ndarray a)).array.dtype = a.dtype) ∧
    ((_to_numpy (InputVector.ndarray a)).array.ndim = a.ndim) ∧
    ((_to_numpy (InputVector.ndarray a)).array.data = a.data) := by
  simp [_to_numpy, h]

theorem to_numpy_noncontiguous_copy_witness :
    (stridedExample.c_contiguous = false) ∧
    (((_to_numpy (InputVector.ndarray stridedExample)).array.c_contiguous = true) ∧
     ((_to_numpy (InputVector.ndarray stridedExample)).array.dtype = stridedExample.dtype) ∧
     ((_to_numpy (InputVector.ndarray stridedExample)).array.ndim = stridedExample.ndim) ∧
     ((_to_numpy (InputVector.ndarray stridedExample)).array.data = stridedExample.data)) :=
  ⟨rfl, to_numpy_noncontiguous_copy stridedExample rfl⟩

/-- C1: a nullable numeric column with at least one missing entry normalizes
to a 64-bit float array - 32-bit float when the source kind is Float32 - of
the same length, with every missing entry mapped to NaN and every present
entry keeping its value. -/
theorem to_numpy_nullable_with_missing (c : NullableColumn)
    (hna : c.data.all Option.isSome = false) :
    ((_to_numpy (InputVector.nullable c)).array.dtype
        = if c.dtype = PdDType.Float32 then DType.float32 else DType.float64) ∧
    ((_to_numpy (InputVector.nullable c)).array.data.length = c.data.length) ∧
    (∀ i : Nat, c.data[i]? = some Option.none →
        (_to_numpy (InputVector.nullable c)).array.data[i]? = some Val.nan) ∧
    (∀ (i : Nat) (v : Val), c.data[i]? = some (some v) →
        (_to_numpy (InputVector.nullable c)).array.data[i]? = some v) :=
  ⟨by simp [_to_numpy, hna],
   by simp [_to_numpy, hna],
   fun i hi => by simp [_to_numpy, hna, List.getElem?_map, hi],
   fun i v hi => by simp [_to_numpy, hna, List.getElem?_map, hi]⟩

theorem to_numpy_nullable_with_missing_witness :
    (naColumnExample.data.all Option.isSome = false) ∧
    ((_to_numpy (InputVector.nullable naColumnExample)).array.dtype
        = if naColumnExample.dtype = PdDType.Float32 then DType.float32
          else DType.float64) ∧
    ((_to_numpy (InputVector.nullable naColumnExample)).array.data[1]? = some Val.nan) ∧
    ((_to_numpy (InputVector.nullable naColumnExample)).array.data[0]? = some (Val.num 1)) ∧
    ((_to_numpy (InputVector.nullable naColumnExample)).array.dtype = DType.float64) ∧
    ((_to_numpy (InputVector.nullable naColumnExample)).array.data
        = [Val.num 1, Val.nan, Val.num 5]) :=
  ⟨rfl,
   (to_numpy_nullable_with_missing naColumnExample rfl).1,
   (to_numpy_nullable_with_missing naColumnExample rfl).2.2.1 1 rfl,
   (to_numpy_nullable_with_missing naColumnExample rfl).2.2.2 0 (Val.num 1) rfl,
   rfl, rfl⟩

/-- C4: batch normalization applies the single-vector normalization to each
vector independently, returning one canonical array per input in the same
order; for one-dimensional inputs every returned array is one-dimensional and
C-contiguous; no cross-vector validation (such as equal lengths) is
performed - the statement imposes no relation between the vectors. -/
theorem vectors_to_arrays_batch (vectors : List InputVector)
    (h1d : vectors.all (fun v => v.ndim == 1) = true) :
    ((vectors_to_arrays vectors).length = vectors.length) ∧
    (∀ i : Nat, (vectors_to_arrays vectors)[i]?
        = (vectors[i]?).map (fun v => (_to_numpy v).array)) ∧
    (∀ a ∈ vectors_to_arrays vectors, a.ndim = 1 ∧ a.c_contiguous = true) := by
  refine ⟨by simp [vectors_to_arrays],
          fun i => by simp [vectors_to_arrays, List.getElem?_map],
          ?_⟩
  intro a ha
  rw [vectors_to_arrays, List.mem_map] at ha
  obtain ⟨v, hv, rfl⟩ := ha
  rw [List.all_eq_true] at h1d
  have hvd : v.ndim = 1 := by
    have := h1d v hv
    simpa using this
  cases v with
  | ndarray a =>
      have ha1 : a.ndim = 1 := hvd
      by_cases hc : a.c_contiguous <;> simp [_to_numpy, hc, ha1]
  | nullable c =>
      by_cases hall : c.data.all Option.isSome <;> simp [_to_numpy, hall]
  | pyseq xs => simp [_to_numpy]

theorem vectors_to_arrays_batch_witness :
    (mixedBatchExample.all (fun v => v.ndim == 1) = true) ∧
    ((vectors_to_arrays mixedBatchExample).length = mixedBatchExample.length) ∧
    ((vectors_to_arrays mixedBatchExample)[1]?
        = (mixedBatchExample[1]?).map (fun v => (_to_numpy v).array)) :=
  ⟨rfl, (vectors_to_arrays_batch mixedBatchExample rfl).1,
   (vectors_to_arrays_batch mixedBatchExample rfl).2.1 1⟩

/-! ### The file-lookup wrapper `which` (src/pygmt/src/which.py) -/

/-- Errors the wrappers can raise. -/
inductive GMTError where
  | invalidInput (msg : String)
  | fileNotFound (msg : String)
  deriving DecidableEq, Repr

/-- The `download` argument of `which`: a bool or a string. -/
inductive Download where
  | ofBool (b : Bool)
  | ofStr (s : String)
  deriving DecidableEq, Repr

/-- The value stored in the option dictionary under the engine's download-mode
flag G: a bool or a string. -/
inductive GFlag where
  | ofBool (b : Bool)
  | ofStr (s : String)
  deriving DecidableEq, Repr

/-- The error message of which.py lines 79-81. -/
def downloadErrMsg : String :=
  "'download' should be either bool, 'auto', 'cache', 'local', or 'user'."

/-- The `match download` statement of `which` (which.py lines 73-82): a bool
or a single-letter form passes through unchanged; a long form is replaced by
its first letter; anything else raises GMTInvalidInput. -/
def which_parse_download : Download → Except GMTError GFlag
  | .ofBool b => .ok (.ofBool b)
  | .ofStr s =>
      if s == "a" || s == "c" || s == "l" || s == "u" then .ok (.ofStr s)
      else if s == "auto" || s == "cache" || s == "local" || s == "user" then
        .ok (.ofStr (s.take 1))
      else .error (.invalidInput downloadErrMsg)

/-- The `fname` argument of `which`: a single file name, or a non-string
iterable of file names. -/
inductive Fname where
  | single (name : String)
  | several (names : List String)
  deriving DecidableEq, Repr

/-- The display form used in the not-found message (which.py line 94):
a non-string iterable is joined on a quote-comma-quote separator, a single
name is used as is. -/
def Fname.display : Fname → String
  | .single n => n
  | .several ns => String.intercalate "', '" ns

/-- The return value of `which`: a scalar path, or an ordered list of
paths. -/
inductive WhichResult where
  | scalar (path : String)
  | list (paths : List String)
  deriving DecidableEq, Repr

/-- The `match paths.size` statement of `which` (which.py lines 92-99): zero
paths raise FileNotFoundError naming the missing file(s), one path is
returned as a scalar, several paths are returned as a list. -/
def which_postprocess (fname : Fname) (paths : List String) :
    Except GMTError WhichResult :=
  match paths with
  | [] => .error (.fileNotFound ("File(s) '" ++ Fname.display fname ++ "' not found."))
  | [p] => .ok (.scalar p)
  | ps => .ok (.list ps)

/-- The wrapper `which` (which.py lines 73-99): parse the download argument,
call the external engine (abstracted here as a function from the parsed
download-mode flag to the list of result paths), and post-process the
paths. -/
def which (fname : Fname) (download : Download) (engine : GFlag → List String) :
    Except GMTError WhichResult :=
  match which_parse_download download with
  | .error e => .error e
  | .ok g => which_postprocess fname (engine g)

/-- The download values the claim enumerates as valid: any bool, the four
long-form strings, and their single-letter forms. -/
def Download.isValid : Download → Bool
  | .ofBool _ => true
  | .ofStr s =>
      s == "a" || s == "c" || s == "l" || s == "u" ||
      s == "auto" || s == "cache" || s == "local" || s == "user"

/-- Helper: post-processing never produces an invalid-input error. -/
theorem which_postprocess_ne_invalid (fname : Fname) (paths : List String)
    (msg : String) :
    which_postprocess fname paths ≠ .error (.invalidInput msg) := by
  match paths with
  | [] => simp [which_postprocess]
  | [p] => simp [which_postprocess]
  | p :: q :: ps => simp [which_postprocess]

/-- C2: once the download argument parses, a zero-path engine result makes
`which` raise FileNotFoundError with a message naming the missing file
name(s); exactly one path is returned as a scalar; more than one path is
returned as the ordered list of paths. -/
theorem which_zero_one_many (fname : Fname) (download : Download)
    (engine : GFlag → List String) (g : GFlag)
    (hg : which_parse_download download = .ok g) :
    (engine g = [] →
        which fname download engine
          = .error (.fileNotFound
              ("File(s) '" ++ Fname.display fname ++ "' not found."))) ∧
    (∀ p, engine g = [p] →
        which fname download engine = .ok (.scalar p)) ∧
    (∀ p q ps, engine g = p :: q :: ps →
        which fname download engine = .ok (.list (p :: q :: ps))) :=
  ⟨fun h => by simp [which, hg, h, which_postprocess],
   fun p h => by simp [which, hg, h, which_postprocess],
   fun p q ps h => by simp [which, hg, h, which_postprocess]⟩

theorem which_zero_one_many_witness :
    (which_parse_download (Download.ofBool false) = Except.ok (GFlag.ofBool false)) ∧
    (which (Fname.single "earth.nc") (Download.ofBool false)
        (fun _ => ["p1", "p2"]) = Except.ok (WhichResult.list ["p1", "p2"])) ∧
    ((fun _ => ([] : List String)) (GFlag.ofBool false) = [] →
      which (Fname.single "earth.nc") (Download.ofBool false)
          (fun _ => ([] : List String))
        = Except.error (GMTError.fileNotFound
            ("File(s) '" ++ Fname.display (Fname.single "earth.nc") ++ "' not found."))) :=
  ⟨rfl,
   (which_zero_one_many (Fname.single "earth.nc") (Download.ofBool false)
      (fun _ => ["p1", "p2"]) (GFlag.ofBool false) rfl).2.2 "p1" "p2" [] rfl,
   (which_zero_one_many (Fname.single "earth.nc") (Download.ofBool false)
      (fun _ => ([] : List String)) (GFlag.ofBool false) rfl).1⟩

/-- C5: an invalid download argument (neither a bool nor one of the
enumerated values or their single-letter forms) makes `which` raise
GMTInvalidInput regardless of the engine's behavior, hence before any
external-engine call; a valid download value never produces that error, and
a long-form value is translated to its first letter as the engine's
download-mode flag. -/
theorem which_download_validation (d : Download) :
    (d.isValid = false →
        ∀ fname engine, which fname d engine
          = .error (.invalidInput downloadErrMsg)) ∧
    (d.isValid = true →
        (∀ fname engine msg,
            which fname d engine ≠ .error (.invalidInput msg)) ∧
        (∀ s, d = .ofStr s →
            (s == "auto" || s == "cache" || s == "local" || s == "user") = true →
            which_parse_download d = .ok (.ofStr (s.take 1)))) := by
  constructor
  · intro hinv fname engine
    cases d with
    | ofBool b => simp [Download.isValid] at hinv
    | ofStr s =>
        simp only [Download.isValid, Bool.or_eq_false_iff] at hinv
        obtain ⟨⟨⟨⟨⟨⟨⟨h1, h2⟩, h3⟩, h4⟩, h5⟩, h6⟩, h7⟩, h8⟩ := hinv
        simp [which, which_parse_download, h1, h2, h3, h4, h5, h6, h7, h8]
  · intro hval
    constructor
    · intro fname engine msg
      cases d with
      | ofBool b => exact which_postprocess_ne_invalid fname _ msg
      | ofStr s =>
          simp only [Download.isValid, Bool.or_eq_true] at hval
          rcases hval with ((((((h | h) | h) | h) | h) | h) | h) | h <;>
            (obtain rfl := eq_of_beq h;
             exact which_postprocess_ne_invalid fname _ msg)
    · intro s hd hlong
      subst hd
      simp only [Bool.or_eq_true] at hlong
      rcases hlong with ((h | h) | h) | h <;>
        (obtain rfl := eq_of_beq h; rfl)

theorem which_download_validation_witness :
    ((Download.ofStr "cached").isValid = false) ∧
    (which (Fname.single "x.nc") (Download.ofStr "cached") (fun _ => ["p"])
        = Except.error (GMTError.invalidInput downloadErrMsg)) ∧
    ((Download.ofStr "cache").isValid = true) ∧
    (which_parse_download (Download.ofStr "cache")
        = Except.ok (GFlag.ofStr ("cache".take 1))) :=
  ⟨rfl,
   (which_download_validation (Download.ofStr "cached")).1 rfl
      (Fname.single "x.nc") (fun _ => ["p"]),
   rfl,
   ((which_download_validation (Download.ofStr "cache")).2 rfl).2 "cache" rfl rfl⟩

/-! ### The legend wrapper (src/pygmt/src/legend.py) -/

/-- The `spec` argument of `legend`: absent, one file path, a non-string
iterable of file paths, an in-memory text buffer, or a value of a type the
wrapper does not recognize (carrying its Python type name). -/
inductive LegendSpec where
  | noSpec
  | file (path : String)
  | files (paths : List String)
  | stringio (content : String)
  | unrecognized (typename : String)
  deriving DecidableEq, Repr

/-- The Python type name of a spec value, used in the error message. -/
def LegendSpec.pytype : LegendSpec → String
  | .noSpec => "NoneType"
  | .file _ => "str"
  | .files _ => "list"
  | .stringio _ => "io.StringIO"
  | .unrecognized t => t

/-- Modelled from the spec: the input-shape classifier `data_kind` of
pygmt.helpers, absent from the source tree.  Per the spec's small set of
accepted input container shapes (external file path, in-memory text buffer,
column mapping, table object) and the source comment in legend.py that kind
"vectors" means spec is None: None classifies as "vectors", a path or a
sequence of paths as "file", a text buffer as "stringio", and any other value
as one of the remaining kinds (here "matrix"). -/
def data_kind : LegendSpec → String
  | .noSpec => "vectors"
  | .file _ => "file"
  | .files _ => "file"
  | .stringio _ => "stringio"
  | .unrecognized _ => "matrix"

/-- Modelled from the spec: the helper `is_nonstr_iter` of pygmt.helpers,
absent from the source tree; true exactly for non-string iterables. -/
def is_nonstr_iter : LegendSpec → Bool
  | .files _ => true
  | _ => false

/-- The final option dictionary of `legend`, restricted to the position flag
D and the box flag F; a missing entry means the flag is not passed to the
engine. -/
structure LegendKwargs where
  D : Option String
  F : Option String
  deriving DecidableEq, Repr

/-- The documented default position (legend.py line 35). -/
def legendDefaultPosition : String := "JTR+jTR+o0.2c"

/-- The documented default box (legend.py line 36). -/
def legendDefaultBox : String := "+gwhite+p1p"

/-- The default-application block of `legend` (legend.py lines 88-91): when
the caller supplied no position (no D entry in kwargs), the default position
is used and, only then, a missing box gets the default box. -/
def legend_apply_defaults (position box : Option String) : LegendKwargs :=
  if position = Option.none then
    { D := some legendDefaultPosition,
      F := if box = Option.none then some legendDefaultBox else box }
  else { D := position, F := box }

/-- The body of `legend` (legend.py lines 86-101).  The caller's `position`
and `box` keywords land in kwargs under D and F through the alias table, so
they are taken here as optional D and F values; the external engine call is
abstracted as a function of the final kwargs.  Defaults are applied first,
then the spec argument is validated, then the engine is called. -/
def legend (spec : LegendSpec) (position box : Option String)
    (engine : LegendKwargs → Except GMTError Unit) :
    Except GMTError LegendKwargs :=
  let kwargs := legend_apply_defaults position box
  let kind := data_kind spec
  if ¬ (kind = "vectors" ∨ kind = "file" ∨ kind = "stringio") then
    .error (.invalidInput ("Unrecognized data type: " ++ spec.pytype))
  else if kind = "file" ∧ is_nonstr_iter spec = true then
    .error (.invalidInput "Only one legend specification file is allowed.")
  else
    match engine kwargs with
    | .error e => .error e
    | .ok _ => .ok kwargs

/-- C6: a spec that is a non-string iterable of file paths, or a spec of an
unrecognized type, makes `legend` raise GMTInvalidInput regardless of the
engine's behavior, hence before any external-engine call. -/
theorem legend_invalid_spec_rejected (position box : Option String) :
    (∀ ps engine, legend (.files ps) position box engine
        = .error (.invalidInput "Only one legend specification file is allowed.")) ∧
    (∀ t engine, legend (.unrecognized t) position box engine
        = .error (.invalidInput ("Unrecognized data type: " ++ t))) :=
  ⟨fun _ _ => rfl, fun _ _ => rfl⟩

/-- C10: the default box is applied only when the position is also left
unspecified: with an explicit position the caller's box value is passed
through unchanged (in particular, no box flag at all when no box was given),
and both documented defaults are applied when neither option is supplied;
the kwargs built this way are exactly what a successful `legend` call passes
to the engine. -/
theorem legend_box_default_coupling :
    (∀ p, legend_apply_defaults (some p) Option.none
        = ⟨some p, Option.none⟩) ∧
    (legend_apply_defaults Option.none Option.none
        = ⟨some legendDefaultPosition, some legendDefaultBox⟩) ∧
    (∀ p box, legend_apply_defaults (some p) box = ⟨some p, box⟩) ∧
    (∀ position b, (legend_apply_defaults position (some b)).F = some b) ∧
    (∀ position box, legend LegendSpec.noSpec position box (fun _ => .ok ())
        = .ok (legend_apply_defaults position box)) :=
  ⟨fun _ => rfl, rfl, fun _ _ => rfl,
   fun position b => by cases position <;> rfl,
   fun _ _ => rfl⟩

/-! ### The paragraph wrapper (src/pygmt/src/paragraph.py) -/

/-- Append a flag and its argument when the argument is present
(paragraph.py line 41). -/
def optFlag (flag : String) : Option String → String
  | Option.none => ""
  | some a => flag ++ a

/-- The helper `_parse_option_f_upper` (paragraph.py lines 19-41): all of
font, angle and justify absent gives no F option; otherwise the present ones
are appended as +f, +a, +j modifiers in that order. -/
def _parse_option_f_upper (font angle justify : Option String) :
    Option String :=
  if font = Option.none ∧ angle = Option.none ∧ justify = Option.none then
    Option.none
  else
    some (optFlag "+f" font ++ optFlag "+a" angle ++ optFlag "+j" justify)

/-- The `text` argument of `paragraph`: one string, or a sequence of
paragraph strings. -/
inductive ParagraphText where
  | single (s : String)
  | several (ls : List String)
  deriving DecidableEq, Repr

/-- Multiple paragraphs are joined with a blank line between them
(paragraph.py line 86). -/
def ParagraphText.joined : ParagraphText → String
  | .single s => s
  | .several ls => String.intercalate "\n\n" ls

/-- What one `paragraph` call hands to the engine: the data header line, the
configuration dictionary, and the module options M and F. -/
structure ParagraphCall where
  header : String
  confdict : List (String × String)
  kwdict_M : Bool
  kwdict_F : Option String
  deriving DecidableEq, Repr

/-- The body of `paragraph` (paragraph.py lines 79-101).  The encoding
detector `_check_encoding` of pygmt.helpers is absent from the source tree
and is deterministic in the text, so the encoding it detects for the given
text is taken here as the `encoding` argument; the octal re-encoding of the
text body does not affect the call structure and is not modelled.  Note that
the wrapper's signature offers the caller no configuration option at all,
yet the configuration dictionary receives a PS_CHAR_ENCODING entry whenever
the detected encoding is neither ascii nor ISOLatin1+. -/
def paragraph (x y : String) (text : ParagraphText)
    (parwidth linespacing : String) (font angle justify : Option String)
    (alignment : String) (encoding : String) : ParagraphCall :=
  { header := "> " ++ x ++ " " ++ y ++ " " ++ linespacing ++ " " ++ parwidth
      ++ " " ++ alignment.take 1 ++ "\n",
    confdict := if encoding = "ascii" ∨ encoding = "ISOLatin1+" then []
      else [("PS_CHAR_ENCODING", encoding)],
    kwdict_M := true,
    kwdict_F := _parse_option_f_upper font angle justify }

/-- C8 counterexample: a paragraph call whose text "ř" is detected as
ISO-8859-2 passes the configuration setting PS_CHAR_ENCODING to the engine,
although the wrapper's signature has no configuration option the caller
could have supplied; so the configuration dictionary is not always free of
settings the caller did not explicitly request. -/
theorem paragraph_config_override_counterexample :
    (paragraph "0" "0" (ParagraphText.single "ř") "5c" "12p"
        Option.none Option.none Option.none "left" "ISO-8859-2").confdict
      = [("PS_CHAR_ENCODING", "ISO-8859-2")] := rfl

/-- C8 amended: the paragraph wrapper, whose signature offers no
configuration option, passes a configuration dictionary that is empty
exactly when the text's detected encoding is ascii or ISOLatin1+, and
otherwise contains exactly one setting, PS_CHAR_ENCODING, set to the
detected encoding - an override the caller did not explicitly request. -/
theorem paragraph_confdict_exact (x y : String) (text : ParagraphText)
    (parwidth linespacing : String) (font angle justify : Option String)
    (alignment encoding : String) :
    ((paragraph x y text parwidth linespacing font angle justify
        alignment encoding).confdict = []
      ↔ (encoding = "ascii" ∨ encoding = "ISOLatin1+")) ∧
    (∀ kv ∈ (paragraph x y text parwidth linespacing font angle justify
        alignment encoding).confdict,
      kv = ("PS_CHAR_ENCODING", encoding)) := by
  by_cases h : encoding = "ascii" ∨ encoding = "ISOLatin1+" <;>
    simp [paragraph, h]

/-! ### The shift-origin wrapper (src/pygmt/src/shift_origin.py) -/

/-- The global names bound at module level in shift_origin.py: the implicit
future-feature name and the three imports (lines 5-9), plus the class
defined in the module itself.  `build_arg_list` is imported;
`build_arg_string` is not bound anywhere. -/
def shiftOriginModuleGlobals : List String :=
  ["annotations", "Figure", "Session", "build_arg_list", "shift_origin"]

/-- A Python runtime error raised during name resolution. -/
inductive PyRunError where
  | nameError (name : String)
  deriving DecidableEq, Repr

/-- Python global-name resolution: a name not bound in the module scope
raises NameError at the moment it is evaluated. -/
def resolveGlobal (scope : List String) (name : String) :
    Except PyRunError Unit :=
  if name ∈ scope then .ok () else .error (.nameError name)

/-- `shift_origin.__init__` (shift_origin.py lines 61-74): build the option
dictionary with T set and X and Y for the requested shifts, enter a Session,
then evaluate `build_arg_string(kwargs)` as the argument of the module call.
Only the kwargs construction and the global-name resolutions the body
performs, in evaluation order, are modelled; the engine call and the
recording of the saved shifts would follow a successful resolution. -/
def shift_origin_init (xshift yshift : Option String) :
    Except PyRunError (List (String × String)) :=
  let kwargs := [("T", "True")]
      ++ (match xshift with | some x => [("X", x)] | Option.none => [])
      ++ (match yshift with | some y => [("Y", y)] | Option.none => [])
  match resolveGlobal shiftOriginModuleGlobals "Session" with
  | .error e => .error e
  | .ok _ =>
      match resolveGlobal shiftOriginModuleGlobals "build_arg_string" with
      | .error e => .error e
      | .ok _ => .ok kwargs

/-- C7 (code bug): every call to the shift-origin wrapper raises NameError
instead of returning normally, because its body calls `build_arg_string`, a
name bound nowhere in the module - only `build_arg_list` is imported (and is
what the module's own `__exit__` uses).  The engine is never invoked and no
shifts are recorded. -/
theorem shift_origin_init_name_error (xshift yshift : Option String) :
    shift_origin_init xshift yshift
      = .error (.nameError "build_arg_string") := rfl

end PyGMT
